import Mathlib

/-
Shallow embedding of the two demo programs
`src/c-cpp/sample-project/src/main.c` and
`src/c-cpp/sample-project/src/main.cpp`.

Both programs open a raylib window, build a `Camera3D`, and loop
`while (!WindowShouldClose())`, each iteration calling
`UpdateCamera(&camera, CAMERA_FREE)` and then drawing a fixed scene
(clear, cube, grid, overlay text) between `BeginDrawing`/`EndDrawing`.

The raylib library is external, so the embedding treats it as an
environment: a poll oracle `polls : Nat → Bool` giving the result of the
k-th `WindowShouldClose()` call, and an update oracle
`upd : Nat → Camera3D → Camera3D` giving the effect of the
`UpdateCamera` call of the k-th loop iteration on the camera it receives
by reference.  Every raylib call the program makes is recorded as an
`Event`; a run denotes the list of events together with the exit code.
The `while` loop is given fuel; a run that never observes a close signal
within its fuel denotes `none` (non-termination at that fuel).

Float literals in the sources (10.0f, 75.0f, 2.0f, ...) are all exactly
representable, and the programs do no arithmetic on them, so they are
embedded as rationals.
-/

namespace SampleProject

/-- raylib `Vector3`, components embedded as rationals. -/
structure Vector3 where
  x : ℚ
  y : ℚ
  z : ℚ
deriving DecidableEq

/-- raylib `Color`, one byte per RGBA channel. -/
structure Color where
  r : ℕ
  g : ℕ
  b : ℕ
  a : ℕ
deriving DecidableEq

/-- raylib `Camera3D`. -/
structure Camera3D where
  position : Vector3
  target : Vector3
  up : Vector3
  fovy : ℚ
  projection : ℕ
deriving DecidableEq

/-- raylib constant `RED` (from raylib.h, external to the repository). -/
def RED : Color := ⟨230, 41, 55, 255⟩

/-- raylib constant `GRAY` (from raylib.h, external to the repository). -/
def GRAY : Color := ⟨130, 130, 130, 255⟩

/-- raylib constant `FLAG_WINDOW_RESIZABLE` (from raylib.h). -/
def FLAG_WINDOW_RESIZABLE : ℕ := 4

/-- raylib constant `CAMERA_PERSPECTIVE` (from raylib.h). -/
def CAMERA_PERSPECTIVE : ℕ := 0

/-- raylib constant `CAMERA_FREE` (from raylib.h). -/
def CAMERA_FREE : ℕ := 1

/-- One raylib call made by the program, with its arguments.  The
`updateCamera` event records both the camera value passed in (`pre`) and
the value the call leaves in place (`post`), since `UpdateCamera`
mutates the camera through a pointer. -/
inductive Event where
  | setConfigFlags (flags : ℕ)
  | initWindow (width height : ℤ) (title : String)
  | setTargetFPS (fps : ℤ)
  | updateCamera (pre post : Camera3D) (mode : ℕ)
  | beginDrawing
  | clearBackground (c : Color)
  | beginMode3D (cam : Camera3D)
  | drawCube (pos : Vector3) (width height length : ℚ) (c : Color)
  | drawGrid (slices : ℤ) (spacing : ℚ)
  | endMode3D
  | drawText (text : String) (posX posY fontSize : ℤ) (c : Color)
  | endDrawing
  | closeWindow
deriving DecidableEq

/-- `const int screenWidth = 800;` (identical in main.c and main.cpp). -/
def screenWidth : ℤ := 800

/-- `const int screenHeight = 450;` (identical in main.c and main.cpp). -/
def screenHeight : ℤ := 450

/-- `Vector3 cube_position = { 0.0f, 0.0f, 0.0f };` (both files). -/
def cube_position : Vector3 := ⟨0, 0, 0⟩

/-- The camera literal of main.c: target 0,0,0; position 10,10,10;
up 0,1,0; fovy 75; perspective projection. -/
def cameraC : Camera3D :=
  { target := ⟨0, 0, 0⟩
    position := ⟨10, 10, 10⟩
    up := ⟨0, 1, 0⟩
    fovy := 75
    projection := CAMERA_PERSPECTIVE }

/-- The camera built field-by-field in main.cpp: target 0,0,0;
position 5,5,5; up 0,1,0; fovy 75; perspective projection. -/
def cameraCpp : Camera3D :=
  { target := ⟨0, 0, 0⟩
    position := ⟨5, 5, 5⟩
    up := ⟨0, 1, 0⟩
    fovy := 75
    projection := CAMERA_PERSPECTIVE }

/-- The events of one loop-body iteration of main.c (lines 26-37):
`UpdateCamera` turning `cam` into `cam'`, then `BeginDrawing`,
`ClearBackground(GRAY)`, `BeginMode3D(camera)`, `DrawCube`, `DrawGrid`,
`EndMode3D`, `DrawText`, `EndDrawing`. -/
def iterEventsC (cam cam' : Camera3D) : List Event :=
  [Event.updateCamera cam cam' CAMERA_FREE,
   Event.beginDrawing,
   Event.clearBackground GRAY,
   Event.beginMode3D cam',
   Event.drawCube cube_position 2 2 2 RED,
   Event.drawGrid 10 1,
   Event.endMode3D,
   Event.drawText "Test" 10 10 16 ⟨0xFF, 0xFF, 0xFF, 0xFF⟩,
   Event.endDrawing]

/-- The events of one loop-body iteration of main.cpp (lines 25-36);
the body is call-for-call the same as in main.c. -/
def iterEventsCpp (cam cam' : Camera3D) : List Event :=
  [Event.updateCamera cam cam' CAMERA_FREE,
   Event.beginDrawing,
   Event.clearBackground GRAY,
   Event.beginMode3D cam',
   Event.drawCube cube_position 2 2 2 RED,
   Event.drawGrid 10 1,
   Event.endMode3D,
   Event.drawText "Test" 10 10 16 ⟨0xFF, 0xFF, 0xFF, 0xFF⟩,
   Event.endDrawing]

/-- The `while (!WindowShouldClose())` loop of main.c.  `i` is the index
of the next `WindowShouldClose` poll, `cam` the current camera value.
If the poll returns true the loop exits at once, contributing no further
events; otherwise the iteration body runs in full and the loop repeats.
Returns `none` when the fuel runs out before a close signal. -/
def whileLoopC (polls : ℕ → Bool) (upd : ℕ → Camera3D → Camera3D) :
    ℕ → ℕ → Camera3D → Option (List Event)
  | 0, _, _ => none
  | fuel + 1, i, cam =>
    if polls i then
      some []
    else
      let cam' := upd i cam
      (whileLoopC polls upd fuel (i + 1) cam').map
        (fun evs => iterEventsC cam cam' ++ evs)

/-- The `while (!WindowShouldClose())` loop of main.cpp, transcribed
from that file; textually the same loop as in main.c. -/
def whileLoopCpp (polls : ℕ → Bool) (upd : ℕ → Camera3D → Camera3D) :
    ℕ → ℕ → Camera3D → Option (List Event)
  | 0, _, _ => none
  | fuel + 1, i, cam =>
    if polls i then
      some []
    else
      let cam' := upd i cam
      (whileLoopCpp polls upd fuel (i + 1) cam').map
        (fun evs => iterEventsCpp cam cam' ++ evs)

/-- The body of `main` in main.c, generalized over the initial camera
value (the source hard-codes `cameraC`): `SetConfigFlags`, `InitWindow`,
`SetTargetFPS(60)`, the while loop, `CloseWindow`, `return 0`. -/
def mainCFrom (polls : ℕ → Bool) (upd : ℕ → Camera3D → Camera3D)
    (fuel : ℕ) (camera : Camera3D) : Option (List Event × ℤ) :=
  (whileLoopC polls upd fuel 0 camera).map (fun evs =>
    (Event.setConfigFlags FLAG_WINDOW_RESIZABLE ::
     Event.initWindow screenWidth screenHeight "Raylib Test" ::
     Event.setTargetFPS 60 ::
     (evs ++ [Event.closeWindow]), 0))

/-- `main` of main.c: `mainCFrom` at the camera literal of main.c. -/
def mainC (polls : ℕ → Bool) (upd : ℕ → Camera3D → Camera3D)
    (fuel : ℕ) : Option (List Event × ℤ) :=
  mainCFrom polls upd fuel cameraC

/-- The body of `main` in main.cpp, generalized over the initial camera
value (the source hard-codes `cameraCpp`). -/
def mainCppFrom (polls : ℕ → Bool) (upd : ℕ → Camera3D → Camera3D)
    (fuel : ℕ) (camera : Camera3D) : Option (List Event × ℤ) :=
  (whileLoopCpp polls upd fuel 0 camera).map (fun evs =>
    (Event.setConfigFlags FLAG_WINDOW_RESIZABLE ::
     Event.initWindow screenWidth screenHeight "Raylib Test" ::
     Event.setTargetFPS 60 ::
     (evs ++ [Event.closeWindow]), 0))

/-- `main` of main.cpp: `mainCppFrom` at the camera literal of main.cpp. -/
def mainCpp (polls : ℕ → Bool) (upd : ℕ → Camera3D → Camera3D)
    (fuel : ℕ) : Option (List Event × ℤ) :=
  mainCppFrom polls upd fuel cameraCpp

/-- The expected event list of `n` consecutive loop iterations of main.c
starting at poll index `i` with camera `cam`. -/
def loopTrace (upd : ℕ → Camera3D → Camera3D) :
    ℕ → ℕ → Camera3D → List Event
  | 0, _, _ => []
  | n + 1, i, cam =>
    iterEventsC cam (upd i cam) ++ loopTrace upd n (i + 1) (upd i cam)

/-- The camera values produced by the `UpdateCamera` steps of `n`
consecutive iterations starting at poll index `i` from camera `cam`:
iteration `i` produces `upd i cam`, and so on. -/
def navCams (upd : ℕ → Camera3D → Camera3D) :
    ℕ → ℕ → Camera3D → List Camera3D
  | 0, _, _ => []
  | n + 1, i, cam => upd i cam :: navCams upd n (i + 1) (upd i cam)

/-! ### Observers on event traces -/

/-- Is the event a `BeginDrawing` call (the start of a frame)? -/
def isBeginDrawing : Event → Bool
  | Event.beginDrawing => true
  | _ => false

/-- Is the event an `EndDrawing` call (the present of a frame)? -/
def isEndDrawing : Event → Bool
  | Event.endDrawing => true
  | _ => false

/-- Is the event a `ClearBackground` call? -/
def isClearBackground : Event → Bool
  | Event.clearBackground _ => true
  | _ => false

/-- Is the event a `BeginMode3D` call? -/
def isBeginMode3D : Event → Bool
  | Event.beginMode3D _ => true
  | _ => false

/-- Is the event an `EndMode3D` call? -/
def isEndMode3D : Event → Bool
  | Event.endMode3D => true
  | _ => false

/-- Is the event a `DrawText` call? -/
def isDrawText : Event → Bool
  | Event.drawText _ _ _ _ _ => true
  | _ => false

/-- Is the event a `DrawCube` call? -/
def isDrawCube : Event → Bool
  | Event.drawCube _ _ _ _ _ => true
  | _ => false

/-- Is the event a `DrawGrid` call? -/
def isDrawGrid : Event → Bool
  | Event.drawGrid _ _ => true
  | _ => false

/-- Is the event an `UpdateCamera` call? -/
def isUpdateCamera : Event → Bool
  | Event.updateCamera _ _ _ => true
  | _ => false

/-- Is the event a `CloseWindow` call? -/
def isCloseWindow : Event → Bool
  | Event.closeWindow => true
  | _ => false

/-- Number of frame iterations recorded in a trace, counted by their
`BeginDrawing` events. -/
def countFrames (t : List Event) : ℕ :=
  t.countP isBeginDrawing

/-- State machine accepting traces in which every begun frame is
completed in full and in order: outside a frame (state 0) only
non-frame events or a `BeginDrawing` may occur; once a frame begins it
must continue clear (1), begin-3D (2), cube (3), grid (4), end-3D (5),
text (6), present (7), returning to state 0.  Accepts only when the
trace ends outside a frame. -/
def frameScan : ℕ → List Event → Bool
  | s, [] => s == 0
  | s, e :: es =>
    match s, e with
    | 0, Event.beginDrawing => frameScan 1 es
    | 0, Event.setConfigFlags _ => frameScan 0 es
    | 0, Event.initWindow _ _ _ => frameScan 0 es
    | 0, Event.setTargetFPS _ => frameScan 0 es
    | 0, Event.updateCamera _ _ _ => frameScan 0 es
    | 0, Event.closeWindow => frameScan 0 es
    | 1, Event.clearBackground _ => frameScan 2 es
    | 2, Event.beginMode3D _ => frameScan 3 es
    | 3, Event.drawCube _ _ _ _ _ => frameScan 4 es
    | 4, Event.drawGrid _ _ => frameScan 5 es
    | 5, Event.endMode3D => frameScan 6 es
    | 6, Event.drawText _ _ _ _ _ => frameScan 7 es
    | 7, Event.endDrawing => frameScan 0 es
    | _, _ => false

/-- A trace whose begun frames all complete in full, in the fixed order
clear, 3D scene, overlay text, present. -/
def framesComplete (t : List Event) : Bool :=
  frameScan 0 t

/-- Checks that every `DrawText` call happens at 3D-scope depth 0,
i.e. after every `BeginMode3D` preceding it has been matched by an
`EndMode3D`.  `d` is the current nesting depth of `BeginMode3D` scopes. -/
def overlayOutside3D : ℕ → List Event → Bool
  | _, [] => true
  | d, e :: es =>
    match e with
    | Event.beginMode3D _ => overlayOutside3D (d + 1) es
    | Event.endMode3D => overlayOutside3D (d - 1) es
    | Event.drawText _ _ _ _ _ => d == 0 && overlayOutside3D d es
    | _ => overlayOutside3D d es

/-- Checks that within each frame the cube is drawn before the grid:
`seen` records whether a `DrawCube` has occurred since the last
`BeginDrawing`, and every `DrawGrid` requires `seen`. -/
def cubeThenGrid : Bool → List Event → Bool
  | _, [] => true
  | seen, e :: es =>
    match e with
    | Event.beginDrawing => cubeThenGrid false es
    | Event.drawCube _ _ _ _ _ => cubeThenGrid true es
    | Event.drawGrid _ _ => seen && cubeThenGrid seen es
    | _ => cubeThenGrid seen es

/-- Every static draw call carries exactly its startup arguments: the
cube at `cube_position` with size 2 by 2 by 2 in `RED`, the grid with 10
slices and spacing 1, the label "Test" at (10,10) size 16 in opaque
white, and the clear in `GRAY`.  Non-draw events pass trivially. -/
def staticDrawOk : Event → Bool
  | Event.drawCube p w h l c =>
      decide (p = cube_position ∧ w = 2 ∧ h = 2 ∧ l = 2 ∧ c = RED)
  | Event.drawGrid s sp => decide (s = 10 ∧ sp = 1)
  | Event.drawText s x y fs c =>
      decide (s = "Test" ∧ x = 10 ∧ y = 10 ∧ fs = 16 ∧
        c = Color.mk 255 255 255 255)
  | Event.clearBackground c => decide (c = GRAY)
  | _ => true

/-- The cameras passed to the `BeginMode3D` calls of a trace, in order. -/
def cams3D : List Event → List Camera3D
  | [] => []
  | Event.beginMode3D c :: es => c :: cams3D es
  | _ :: es => cams3D es

/-- The camera values produced (left in place) by the `UpdateCamera`
calls of a trace, in order. -/
def camsNav : List Event → List Camera3D
  | [] => []
  | Event.updateCamera _ post _ :: es => post :: camsNav es
  | _ :: es => camsNav es

/-! ### Basic lemmas about the loop semantics -/

/-- If the first `n` polls from index `i` are false and the next is
true, the while loop of main.c runs exactly `n` iterations and yields
`loopTrace upd n i cam`, provided it has more than `n` units of fuel. -/
lemma whileLoopC_spec (polls : ℕ → Bool) (upd : ℕ → Camera3D → Camera3D) :
    ∀ (n i : ℕ) (cam : Camera3D) (fuel : ℕ),
      (∀ k, k < n → polls (i + k) = false) → polls (i + n) = true →
      n < fuel →
      whileLoopC polls upd fuel i cam = some (loopTrace upd n i cam) := by
  intro n
  induction n with
  | zero =>
    intro i cam fuel _ htrue hfuel
    obtain ⟨fuel, rfl⟩ : ∃ f, fuel = f + 1 := ⟨fuel - 1, by omega⟩
    have h : polls i = true := by simpa using htrue
    simp [whileLoopC, h, loopTrace]
  | succ n ih =>
    intro i cam fuel hfalse htrue hfuel
    obtain ⟨fuel, rfl⟩ : ∃ f, fuel = f + 1 := ⟨fuel - 1, by omega⟩
    have h0 : polls i = false := by
      have h := hfalse 0 (Nat.succ_pos n)
      simpa using h
    have hfalse' : ∀ k, k < n → polls (i + 1 + k) = false := by
      intro k hk
      have h := hfalse (k + 1) (by omega)
      have he : i + (k + 1) = i + 1 + k := by omega
      rw [he] at h
      exact h
    have htrue' : polls (i + 1 + n) = true := by
      have he : i + (n + 1) = i + 1 + n := by omega
      rw [he] at htrue
      exact htrue
    have hrec := ih (i + 1) (upd i cam) fuel hfalse' htrue' (by omega)
    simp [whileLoopC, h0, loopTrace, hrec]

/-- Full-trace description of a terminating run of main.c: with `N ≥ 1`
polls of which the first `N - 1` are false and the `N`-th is true, the
run is the three startup calls, `N - 1` full iterations, and the window
teardown, with exit code 0. -/
lemma mainC_spec (polls : ℕ → Bool) (upd : ℕ → Camera3D → Camera3D)
    (fuel N : ℕ) (hN : 0 < N)
    (hfalse : ∀ k, k < N - 1 → polls k = false)
    (htrue : polls (N - 1) = true) (hfuel : N ≤ fuel) :
    mainC polls upd fuel =
      some (Event.setConfigFlags FLAG_WINDOW_RESIZABLE ::
        Event.initWindow screenWidth screenHeight "Raylib Test" ::
        Event.setTargetFPS 60 ::
        (loopTrace upd (N - 1) 0 cameraC ++ [Event.closeWindow]), 0) := by
  have h := whileLoopC_spec polls upd (N - 1) 0 cameraC fuel
    (by intro k hk; simpa using hfalse k hk)
    (by simpa using htrue) (by omega)
  simp [mainC, mainCFrom, h]

/-- The while loops of main.c and main.cpp compute the same function. -/
lemma whileLoop_eq (polls : ℕ → Bool) (upd : ℕ → Camera3D → Camera3D) :
    ∀ (fuel i : ℕ) (cam : Camera3D),
      whileLoopCpp polls upd fuel i cam = whileLoopC polls upd fuel i cam := by
  intro fuel
  induction fuel with
  | zero => intro i cam; simp [whileLoopC, whileLoopCpp]
  | succ fuel ih =>
    intro i cam
    simp [whileLoopC, whileLoopCpp, iterEventsC, iterEventsCpp, ih]

/-! ### Per-iteration block lemmas for the trace checkers -/

/-- One iteration block leaves the frame state machine back outside a
frame. -/
lemma frameScan_iter (c c' : Camera3D) (rest : List Event) :
    frameScan 0 (iterEventsC c c' ++ rest) = frameScan 0 rest := rfl

/-- One iteration block keeps every `DrawText` outside the 3D scope and
returns to depth 0. -/
lemma overlayOutside3D_iter (c c' : Camera3D) (rest : List Event) :
    overlayOutside3D 0 (iterEventsC c c' ++ rest) =
      overlayOutside3D 0 rest := rfl

/-- One iteration block draws its cube before its grid, and ends with
the cube-seen flag set. -/
lemma cubeThenGrid_iter (b : Bool) (c c' : Camera3D) (rest : List Event) :
    cubeThenGrid b (iterEventsC c c' ++ rest) = cubeThenGrid true rest := rfl

/-- All static draw calls of one iteration block carry the startup
arguments. -/
lemma staticDrawOk_iter (c c' : Camera3D) :
    (iterEventsC c c').all staticDrawOk = true := rfl

/-- The `BeginMode3D` camera of one iteration block is its second
argument, the updated camera. -/
lemma cams3D_iter (c c' : Camera3D) (rest : List Event) :
    cams3D (iterEventsC c c' ++ rest) = c' :: cams3D rest := rfl

/-- The `UpdateCamera` output of one iteration block is its second
argument, the updated camera. -/
lemma camsNav_iter (c c' : Camera3D) (rest : List Event) :
    camsNav (iterEventsC c c' ++ rest) = c' :: camsNav rest := rfl

/-! ### Lemmas about `loopTrace` -/

/-- Any per-event count that is `m` on every iteration block is `n * m`
on `n` iterations. -/
lemma loopTrace_countP (upd : ℕ → Camera3D → Camera3D) (p : Event → Bool)
    (m : ℕ) (hp : ∀ c c', (iterEventsC c c').countP p = m) :
    ∀ (n i : ℕ) (cam : Camera3D),
      (loopTrace upd n i cam).countP p = n * m := by
  intro n
  induction n with
  | zero => intro i cam; simp [loopTrace]
  | succ n ih =>
    intro i cam
    simp only [loopTrace, List.countP_append, hp, ih]
    ring

/-- The frame state machine accepts `n` iterations followed by anything
it accepts. -/
lemma loopTrace_frameScan (upd : ℕ → Camera3D → Camera3D) :
    ∀ (n i : ℕ) (cam : Camera3D) (rest : List Event),
      frameScan 0 (loopTrace upd n i cam ++ rest) = frameScan 0 rest := by
  intro n
  induction n with
  | zero => intro i cam rest; simp [loopTrace]
  | succ n ih =>
    intro i cam rest
    rw [loopTrace, List.append_assoc, frameScan_iter, ih]

/-- Over `n` iterations every overlay draw happens at 3D depth 0, and
the depth returns to 0. -/
lemma loopTrace_overlay (upd : ℕ → Camera3D → Camera3D) :
    ∀ (n i : ℕ) (cam : Camera3D) (rest : List Event),
      overlayOutside3D 0 (loopTrace upd n i cam ++ rest) =
        overlayOutside3D 0 rest := by
  intro n
  induction n with
  | zero => intro i cam rest; simp [loopTrace]
  | succ n ih =>
    intro i cam rest
    rw [loopTrace, List.append_assoc, overlayOutside3D_iter, ih]

/-- Over `n` iterations the cube-before-grid discipline holds, whatever
the incoming flag, provided the continuation passes with any flag. -/
lemma loopTrace_cubeThenGrid (upd : ℕ → Camera3D → Camera3D) :
    ∀ (n i : ℕ) (cam : Camera3D) (b : Bool) (rest : List Event),
      (∀ b', cubeThenGrid b' rest = true) →
      cubeThenGrid b (loopTrace upd n i cam ++ rest) = true := by
  intro n
  induction n with
  | zero =>
    intro i cam b rest hrest
    simpa [loopTrace] using hrest b
  | succ n ih =>
    intro i cam b rest hrest
    rw [loopTrace, List.append_assoc, cubeThenGrid_iter]
    exact ih (i + 1) (upd i cam) true rest hrest

/-- Every static draw call in `n` iterations carries the startup
arguments. -/
lemma loopTrace_static (upd : ℕ → Camera3D → Camera3D) :
    ∀ (n i : ℕ) (cam : Camera3D),
      (loopTrace upd n i cam).all staticDrawOk = true := by
  intro n
  induction n with
  | zero => intro i cam; simp [loopTrace]
  | succ n ih =>
    intro i cam
    rw [loopTrace, List.all_append, staticDrawOk_iter, ih (i + 1) (upd i cam)]
    rfl

/-- The cameras fed to `BeginMode3D` over `n` iterations are exactly the
navigation-step outputs of those iterations. -/
lemma loopTrace_cams3D (upd : ℕ → Camera3D → Camera3D) :
    ∀ (n i : ℕ) (cam : Camera3D) (rest : List Event),
      cams3D (loopTrace upd n i cam ++ rest) =
        navCams upd n i cam ++ cams3D rest := by
  intro n
  induction n with
  | zero => intro i cam rest; simp [loopTrace, navCams]
  | succ n ih =>
    intro i cam rest
    rw [loopTrace, List.append_assoc, cams3D_iter, ih, navCams]
    rfl

/-- The cameras produced by `UpdateCamera` over `n` iterations are the
navigation-step outputs of those iterations. -/
lemma loopTrace_camsNav (upd : ℕ → Camera3D → Camera3D) :
    ∀ (n i : ℕ) (cam : Camera3D) (rest : List Event),
      camsNav (loopTrace upd n i cam ++ rest) =
        navCams upd n i cam ++ camsNav rest := by
  intro n
  induction n with
  | zero => intro i cam rest; simp [loopTrace, navCams]
  | succ n ih =>
    intro i cam rest
    rw [loopTrace, List.append_assoc, camsNav_iter, ih, navCams]
    rfl

/-- The navigation-output list of `n` iterations has length `n`. -/
lemma navCams_length (upd : ℕ → Camera3D → Camera3D) :
    ∀ (n i : ℕ) (cam : Camera3D), (navCams upd n i cam).length = n := by
  intro n
  induction n with
  | zero => intro i cam; simp [navCams]
  | succ n ih => intro i cam; simp [navCams, ih]

/-! ### Termination and exit-code lemmas -/

/-- The while loop of main.c terminates within its fuel exactly when
some poll within the fuel returns true. -/
lemma whileLoopC_isSome (polls : ℕ → Bool) (upd : ℕ → Camera3D → Camera3D) :
    ∀ (fuel i : ℕ) (cam : Camera3D),
      (whileLoopC polls upd fuel i cam).isSome = true ↔
        ∃ k, k < fuel ∧ polls (i + k) = true := by
  intro fuel
  induction fuel with
  | zero =>
    intro i cam
    simp [whileLoopC]
  | succ fuel ih =>
    intro i cam
    by_cases h : polls i = true
    · simp only [whileLoopC, h, if_true]
      exact iff_of_true rfl ⟨0, Nat.succ_pos _, by simpa using h⟩
    · have h' : polls i = false := by
        cases hp : polls i with
        | false => rfl
        | true => exact absurd hp h
      cases hwl : whileLoopC polls upd fuel (i + 1) (upd i cam) with
      | none =>
        simp only [whileLoopC, h', if_false, hwl, Option.map_none']
        constructor
        · intro hc; cases hc
        · rintro ⟨k, hk, hp⟩
          match k with
          | 0 =>
            rw [Nat.add_zero] at hp
            rw [h'] at hp
            cases hp
          | k + 1 =>
            have hmem : ∃ j, j < fuel ∧ polls (i + 1 + j) = true := by
              refine ⟨k, by omega, ?_⟩
              have he : i + 1 + k = i + (k + 1) := by omega
              rw [he]
              exact hp
            have := (ih (i + 1) (upd i cam)).mpr hmem
            rw [hwl] at this
            cases this
      | some evs =>
        simp only [whileLoopC, h', if_false, hwl, Option.map_some']
        constructor
        · intro _
          have hmem : (whileLoopC polls upd fuel (i + 1) (upd i cam)).isSome
              = true := by rw [hwl]; rfl
          obtain ⟨k, hk, hp⟩ := (ih (i + 1) (upd i cam)).mp hmem
          refine ⟨k + 1, by omega, ?_⟩
          have he : i + (k + 1) = i + 1 + k := by omega
          rw [he]
          exact hp
        · intro _; rfl

/-- Every terminating run of main.c (from any initial camera) exits
with code 0. -/
lemma mainCFrom_exit (polls : ℕ → Bool) (upd : ℕ → Camera3D → Camera3D)
    (fuel : ℕ) (cam₀ : Camera3D) (t : List Event) (r : ℤ)
    (h : mainCFrom polls upd fuel cam₀ = some (t, r)) : r = 0 := by
  unfold mainCFrom at h
  cases hwl : whileLoopC polls upd fuel 0 cam₀ with
  | none => rw [hwl] at h; cases h
  | some evs =>
    rw [hwl, Option.map_some'] at h
    have := (Option.some.injEq _ _).mp h
    exact (congrArg Prod.snd this).symm

/-- Whatever events a successful while loop of main.c emits, the frame
state machine scans through them back to the outside-frame state. -/
lemma whileLoopC_frameScan (polls : ℕ → Bool) (upd : ℕ → Camera3D → Camera3D) :
    ∀ (fuel i : ℕ) (cam : Camera3D) (evs : List Event),
      whileLoopC polls upd fuel i cam = some evs →
      ∀ rest, frameScan 0 (evs ++ rest) = frameScan 0 rest := by
  intro fuel
  induction fuel with
  | zero => intro i cam evs h; cases h
  | succ fuel ih =>
    intro i cam evs h rest
    by_cases hp : polls i = true
    · simp only [whileLoopC, hp, if_true, Option.some.injEq] at h
      rw [← h]
      rfl
    · have hp' : polls i = false := by
        cases hq : polls i with
        | false => rfl
        | true => exact absurd hq hp
      simp only [whileLoopC, hp', Bool.false_eq_true, if_false] at h
      rw [Option.map_eq_some'] at h
      obtain ⟨a, ha, rfl⟩ := h
      rw [List.append_assoc, frameScan_iter]
      exact ih (i + 1) (upd i cam) a ha rest

/-- A per-event count that ignores the three startup calls and the
teardown call equals its count over the loop part of the trace. -/
lemma countP_wrap (p : Event → Bool)
    (h1 : p (Event.setConfigFlags FLAG_WINDOW_RESIZABLE) = false)
    (h2 : p (Event.initWindow screenWidth screenHeight "Raylib Test") = false)
    (h3 : p (Event.setTargetFPS 60) = false)
    (h4 : p Event.closeWindow = false)
    (lt : List Event) :
    (Event.setConfigFlags FLAG_WINDOW_RESIZABLE ::
     Event.initWindow screenWidth screenHeight "Raylib Test" ::
     Event.setTargetFPS 60 :: (lt ++ [Event.closeWindow])).countP p =
      lt.countP p := by
  simp [List.countP_cons, List.countP_append, h1, h2, h3, h4]

/-! ### The claims -/

/-- C1, as frozen, is false on the code: with `N = 1` (the very first
`WindowShouldClose` poll returns true, so the first `N - 1 = 0` polls
are vacuously false and the `N`-th poll is true), the run performs 0
full frame iterations, not `N = 1`. -/
theorem frame_count_off_by_one_counterexample :
    (fun _ : ℕ => true) 0 = true ∧
    (mainC (fun _ => true) (fun _ c => c) 1).map (fun r => countFrames r.1) =
      some 0 ∧
    (mainC (fun _ => true) (fun _ c => c) 1).map (fun r => countFrames r.1) ≠
      some 1 :=
  ⟨rfl, rfl, by decide⟩

/-- C1 (amended): for every sequence of `N ≥ 1` close-signal polls in
which the first `N - 1` polls return false and the `N`-th returns true,
the run performs exactly `N - 1` full frame iterations, each complete
and in order (clear, 3D draw, overlay draw, present), and then performs
window teardown exactly once, as the final call. -/
theorem mainC_frame_count (polls : ℕ → Bool)
    (upd : ℕ → Camera3D → Camera3D) (fuel N : ℕ) (hN : 0 < N)
    (hfalse : ∀ k, k < N - 1 → polls k = false)
    (htrue : polls (N - 1) = true) (hfuel : N ≤ fuel) :
    ∃ t, mainC polls upd fuel = some (t, 0) ∧
      countFrames t = N - 1 ∧
      t.countP isEndDrawing = N - 1 ∧
      framesComplete t = true ∧
      t.countP isCloseWindow = 1 ∧
      t.getLast? = some Event.closeWindow := by
  refine ⟨_, mainC_spec polls upd fuel N hN hfalse htrue hfuel, ?_, ?_, ?_, ?_, ?_⟩
  · rw [countFrames, countP_wrap isBeginDrawing rfl rfl rfl rfl,
      loopTrace_countP upd isBeginDrawing 1 (fun _ _ => rfl), Nat.mul_one]
  · rw [countP_wrap isEndDrawing rfl rfl rfl rfl,
      loopTrace_countP upd isEndDrawing 1 (fun _ _ => rfl), Nat.mul_one]
  · show frameScan 0 (loopTrace upd (N - 1) 0 cameraC ++ [Event.closeWindow]) =
      true
    rw [loopTrace_frameScan]
    rfl
  · show (Event.setConfigFlags FLAG_WINDOW_RESIZABLE ::
      Event.initWindow screenWidth screenHeight "Raylib Test" ::
      Event.setTargetFPS 60 ::
      (loopTrace upd (N - 1) 0 cameraC ++ [Event.closeWindow])).countP
        isCloseWindow = 1
    simp [List.countP_cons, List.countP_append,
      loopTrace_countP upd isCloseWindow 0 (fun _ _ => rfl),
      show isCloseWindow (Event.setConfigFlags FLAG_WINDOW_RESIZABLE) = false
        from rfl,
      show isCloseWindow
        (Event.initWindow screenWidth screenHeight "Raylib Test") = false
        from rfl,
      show isCloseWindow (Event.setTargetFPS 60) = false from rfl,
      show isCloseWindow Event.closeWindow = true from rfl]
  · show ((Event.setConfigFlags FLAG_WINDOW_RESIZABLE ::
      Event.initWindow screenWidth screenHeight "Raylib Test" ::
      Event.setTargetFPS 60 ::
      loopTrace upd (N - 1) 0 cameraC) ++ [Event.closeWindow]).getLast? =
        some Event.closeWindow
    exact List.getLast?_concat _

/-- Witness for C1 (amended): 4 polls, the first 3 false and the 4th
true, give exactly 3 full frames. -/
theorem mainC_frame_count_witness :
    ∃ t, mainC (fun k => decide (3 ≤ k)) (fun _ c => c) 4 = some (t, 0) ∧
      countFrames t = 4 - 1 ∧
      t.countP isEndDrawing = 4 - 1 ∧
      framesComplete t = true ∧
      t.countP isCloseWindow = 1 ∧
      t.getLast? = some Event.closeWindow :=
  mainC_frame_count (fun k => decide (3 ≤ k)) (fun _ c => c) 4 4
    (by decide)
    (fun k hk => by
      simp only [decide_eq_false_iff_not]
      omega)
    (by decide) (by decide)

/-- C2, as frozen, is false on the code: in the run whose first poll
returns true, the poll at the start of the first iteration returns true,
yet that iteration performs no clear and no present at all — the loop
exits immediately rather than after a completed frame. -/
theorem close_poll_aborts_before_frame_counterexample :
    (fun _ : ℕ => true) 0 = true ∧
    (mainC (fun _ => true) (fun _ c => c) 1).map
      (fun r => r.1.countP isClearBackground) = some 0 ∧
    (mainC (fun _ => true) (fun _ c => c) 1).map
      (fun r => r.1.countP isEndDrawing) = some 0 :=
  ⟨rfl, rfl, rfl⟩

/-- C2 (amended): the loop never aborts mid-frame — every frame that
begins runs to completion in full order (clear, 3D draw, overlay draw,
present) — and when the close poll at the start of an iteration returns
true the loop terminates immediately, before any part of that
iteration's frame (its clear, draws, and present do not occur). -/
theorem no_mid_frame_abort :
    (∀ (polls : ℕ → Bool) (upd : ℕ → Camera3D → Camera3D) (fuel : ℕ)
        (t : List Event) (r : ℤ),
        mainC polls upd fuel = some (t, r) → framesComplete t = true) ∧
    (∀ (polls : ℕ → Bool) (upd : ℕ → Camera3D → Camera3D) (fuel i : ℕ)
        (cam : Camera3D), polls i = true → 0 < fuel →
        whileLoopC polls upd fuel i cam = some []) := by
  constructor
  · intro polls upd fuel t r h
    unfold mainC mainCFrom at h
    cases hwl : whileLoopC polls upd fuel 0 cameraC with
    | none => rw [hwl] at h; cases h
    | some evs =>
      rw [hwl, Option.map_some'] at h
      simp only [Option.some.injEq, Prod.mk.injEq] at h
      obtain ⟨ht, _⟩ := h
      rw [← ht]
      show frameScan 0 (evs ++ [Event.closeWindow]) = true
      rw [whileLoopC_frameScan polls upd fuel 0 cameraC evs hwl]
      rfl
  · intro polls upd fuel i cam hp hf
    obtain ⟨fuel, rfl⟩ : ∃ f, fuel = f + 1 := ⟨fuel - 1, by omega⟩
    simp [whileLoopC, hp]

/-- Witness for C2 (amended): the all-true poll run exits with a
well-formed (frameless) trace, and the loop yields no events when its
first poll is true. -/
theorem no_mid_frame_abort_witness :
    framesComplete [Event.setConfigFlags FLAG_WINDOW_RESIZABLE,
      Event.initWindow screenWidth screenHeight "Raylib Test",
      Event.setTargetFPS 60, Event.closeWindow] = true ∧
    whileLoopC (fun _ => true) (fun _ c => c) 1 0 cameraC = some [] :=
  ⟨no_mid_frame_abort.1 (fun _ => true) (fun _ c => c) 1 _ 0 rfl,
   no_mid_frame_abort.2 (fun _ => true) (fun _ c => c) 1 0 cameraC rfl
     (by decide)⟩

/-- C3 (confirmed): in every run terminated by its `N`-th poll, each of
the `N - 1` iterations enters the 3D-mode scope exactly once (there are
exactly `N - 1` `BeginMode3D` and `N - 1` `EndMode3D` calls for `N - 1`
iterations) and every one of the `N - 1` overlay text draws happens at
3D-scope depth 0, i.e. after the scope of its iteration was exited;
the overlay is never drawn inside the 3D scope. -/
theorem mode3D_scope_per_iteration (polls : ℕ → Bool)
    (upd : ℕ → Camera3D → Camera3D) (fuel N : ℕ) (hN : 0 < N)
    (hfalse : ∀ k, k < N - 1 → polls k = false)
    (htrue : polls (N - 1) = true) (hfuel : N ≤ fuel) :
    ∃ t, mainC polls upd fuel = some (t, 0) ∧
      t.countP isBeginMode3D = N - 1 ∧
      t.countP isEndMode3D = N - 1 ∧
      t.countP isDrawText = N - 1 ∧
      overlayOutside3D 0 t = true ∧
      framesComplete t = true := by
  refine ⟨_, mainC_spec polls upd fuel N hN hfalse htrue hfuel, ?_, ?_, ?_, ?_, ?_⟩
  · rw [countP_wrap isBeginMode3D rfl rfl rfl rfl,
      loopTrace_countP upd isBeginMode3D 1 (fun _ _ => rfl), Nat.mul_one]
  · rw [countP_wrap isEndMode3D rfl rfl rfl rfl,
      loopTrace_countP upd isEndMode3D 1 (fun _ _ => rfl), Nat.mul_one]
  · rw [countP_wrap isDrawText rfl rfl rfl rfl,
      loopTrace_countP upd isDrawText 1 (fun _ _ => rfl), Nat.mul_one]
  · show overlayOutside3D 0
      (loopTrace upd (N - 1) 0 cameraC ++ [Event.closeWindow]) = true
    rw [loopTrace_overlay]
    rfl
  · show frameScan 0 (loopTrace upd (N - 1) 0 cameraC ++ [Event.closeWindow]) =
      true
    rw [loopTrace_frameScan]
    rfl

/-- Witness for C3: the 4-poll run has 3 scope entries and exits and
its overlay draws all happen outside the 3D scope. -/
theorem mode3D_scope_per_iteration_witness :
    ∃ t, mainC (fun k => decide (3 ≤ k)) (fun _ c => c) 4 = some (t, 0) ∧
      t.countP isBeginMode3D = 4 - 1 ∧
      t.countP isEndMode3D = 4 - 1 ∧
      t.countP isDrawText = 4 - 1 ∧
      overlayOutside3D 0 t = true ∧
      framesComplete t = true :=
  mode3D_scope_per_iteration (fun k => decide (3 ≤ k)) (fun _ c => c) 4 4
    (by decide)
    (fun k hk => by
      simp only [decide_eq_false_iff_not]
      omega)
    (by decide) (by decide)

/-- C4 (confirmed): in every run terminated by its `N`-th poll, every
iteration draws the cube before the grid (every `DrawGrid` call is
preceded by a `DrawCube` call since that iteration's `BeginDrawing`),
and there is exactly one cube draw and one grid draw per iteration. -/
theorem cube_drawn_before_grid (polls : ℕ → Bool)
    (upd : ℕ → Camera3D → Camera3D) (fuel N : ℕ) (hN : 0 < N)
    (hfalse : ∀ k, k < N - 1 → polls k = false)
    (htrue : polls (N - 1) = true) (hfuel : N ≤ fuel) :
    ∃ t, mainC polls upd fuel = some (t, 0) ∧
      cubeThenGrid false t = true ∧
      t.countP isDrawCube = N - 1 ∧
      t.countP isDrawGrid = N - 1 := by
  refine ⟨_, mainC_spec polls upd fuel N hN hfalse htrue hfuel, ?_, ?_, ?_⟩
  · show cubeThenGrid false
      (loopTrace upd (N - 1) 0 cameraC ++ [Event.closeWindow]) = true
    exact loopTrace_cubeThenGrid upd (N - 1) 0 cameraC false [Event.closeWindow]
      (fun _ => rfl)
  · rw [countP_wrap isDrawCube rfl rfl rfl rfl,
      loopTrace_countP upd isDrawCube 1 (fun _ _ => rfl), Nat.mul_one]
  · rw [countP_wrap isDrawGrid rfl rfl rfl rfl,
      loopTrace_countP upd isDrawGrid 1 (fun _ _ => rfl), Nat.mul_one]

/-- Witness for C4: in the 4-poll run the cube precedes the grid in
each of the 3 iterations. -/
theorem cube_drawn_before_grid_witness :
    ∃ t, mainC (fun k => decide (3 ≤ k)) (fun _ c => c) 4 = some (t, 0) ∧
      cubeThenGrid false t = true ∧
      t.countP isDrawCube = 4 - 1 ∧
      t.countP isDrawGrid = 4 - 1 :=
  cube_drawn_before_grid (fun k => decide (3 ≤ k)) (fun _ c => c) 4 4
    (by decide)
    (fun k hk => by
      simp only [decide_eq_false_iff_not]
      omega)
    (by decide) (by decide)

/-- C5 (confirmed): in every run terminated by its `N`-th poll, the list
of camera values supplied to the `BeginMode3D` calls equals, call for
call, the list of camera values produced by the `UpdateCamera` step of
the matching iterations — the `k`-th 3D scope receives exactly the
`k`-th navigation output, so no camera value from an earlier iteration
is ever passed to the 3D scope. -/
theorem camera_fresh_per_iteration (polls : ℕ → Bool)
    (upd : ℕ → Camera3D → Camera3D) (fuel N : ℕ) (hN : 0 < N)
    (hfalse : ∀ k, k < N - 1 → polls k = false)
    (htrue : polls (N - 1) = true) (hfuel : N ≤ fuel) :
    ∃ t, mainC polls upd fuel = some (t, 0) ∧
      cams3D t = camsNav t ∧
      cams3D t = navCams upd (N - 1) 0 cameraC ∧
      (cams3D t).length = N - 1 := by
  refine ⟨_, mainC_spec polls upd fuel N hN hfalse htrue hfuel, ?_, ?_, ?_⟩
  · show cams3D (loopTrace upd (N - 1) 0 cameraC ++ [Event.closeWindow]) =
      camsNav (loopTrace upd (N - 1) 0 cameraC ++ [Event.closeWindow])
    rw [loopTrace_cams3D, loopTrace_camsNav]
    rfl
  · show cams3D (loopTrace upd (N - 1) 0 cameraC ++ [Event.closeWindow]) =
      navCams upd (N - 1) 0 cameraC
    rw [loopTrace_cams3D]
    simp [cams3D]
  · show (cams3D
      (loopTrace upd (N - 1) 0 cameraC ++ [Event.closeWindow])).length =
        N - 1
    rw [loopTrace_cams3D]
    simp [cams3D, navCams_length]

/-- Witness for C5: in the 4-poll run with a concrete camera-update
function (which moves the camera by 1 on the x axis each frame), the
3D-scope cameras are exactly the per-iteration navigation outputs. -/
theorem camera_fresh_per_iteration_witness :
    ∃ t, mainC (fun k => decide (3 ≤ k))
        (fun _ c => { c with position := ⟨c.position.x + 1, c.position.y,
          c.position.z⟩ }) 4 = some (t, 0) ∧
      cams3D t = camsNav t ∧
      cams3D t = navCams
        (fun _ c => { c with position := ⟨c.position.x + 1, c.position.y,
          c.position.z⟩ }) (4 - 1) 0 cameraC ∧
      (cams3D t).length = 4 - 1 :=
  camera_fresh_per_iteration (fun k => decide (3 ≤ k))
    (fun _ c => { c with position := ⟨c.position.x + 1, c.position.y,
      c.position.z⟩ }) 4 4
    (by decide)
    (fun k hk => by
      simp only [decide_eq_false_iff_not]
      omega)
    (by decide) (by decide)

/-- C6 (confirmed): when the close signal is true on the very first
poll, the run opens the window ("Raylib Test", 800 by 450, with the
resizable config flag) and tears it down with no draw iteration in
between, exiting with code 0; moreover every terminating run exits with
code 0, and a run terminates exactly when some poll within its fuel
returns true (the close signal is the only termination trigger). -/
theorem first_poll_close_clean_exit :
    (∀ (polls : ℕ → Bool) (upd : ℕ → Camera3D → Camera3D) (fuel : ℕ),
        polls 0 = true → 0 < fuel →
        mainC polls upd fuel =
          some ([Event.setConfigFlags FLAG_WINDOW_RESIZABLE,
                 Event.initWindow 800 450 "Raylib Test",
                 Event.setTargetFPS 60, Event.closeWindow], 0)) ∧
    countFrames [Event.setConfigFlags FLAG_WINDOW_RESIZABLE,
      Event.initWindow 800 450 "Raylib Test",
      Event.setTargetFPS 60, Event.closeWindow] = 0 ∧
    (∀ (polls : ℕ → Bool) (upd : ℕ → Camera3D → Camera3D) (fuel : ℕ)
        (t : List Event) (r : ℤ),
        mainC polls upd fuel = some (t, r) → r = 0) ∧
    (∀ (polls : ℕ → Bool) (upd : ℕ → Camera3D → Camera3D) (fuel : ℕ),
        (mainC polls upd fuel).isSome = true ↔
          ∃ k, k < fuel ∧ polls k = true) := by
  refine ⟨?_, rfl, ?_, ?_⟩
  · intro polls upd fuel h0 hf
    exact mainC_spec polls upd fuel 1 (by decide)
      (fun k hk => absurd hk (by omega)) h0 (by omega)
  · intro polls upd fuel t r h
    exact mainCFrom_exit polls upd fuel cameraC t r h
  · intro polls upd fuel
    have h := whileLoopC_isSome polls upd fuel 0 cameraC
    simp only [Nat.zero_add] at h
    cases hwl : whileLoopC polls upd fuel 0 cameraC with
    | none =>
      rw [hwl] at h
      simpa [mainC, mainCFrom, hwl] using h
    | some evs =>
      rw [hwl] at h
      simpa [mainC, mainCFrom, hwl] using h

/-- Witness for C6: the all-true poll oracle with fuel 1 produces the
four-call trace with exit code 0, and its termination is equivalent to
the existence of a true poll. -/
theorem first_poll_close_clean_exit_witness :
    mainC (fun _ => true) (fun _ c => c) 1 =
      some ([Event.setConfigFlags FLAG_WINDOW_RESIZABLE,
             Event.initWindow 800 450 "Raylib Test",
             Event.setTargetFPS 60, Event.closeWindow], 0) ∧
    (0 : ℤ) = 0 ∧
    ((mainC (fun _ => true) (fun _ c => c) 1).isSome = true ↔
      ∃ k, k < 1 ∧ (fun _ : ℕ => true) k = true) :=
  ⟨first_poll_close_clean_exit.1 (fun _ => true) (fun _ c => c) 1 rfl
     (by decide),
   first_poll_close_clean_exit.2.2.1 (fun _ => true) (fun _ c => c) 1
     [Event.setConfigFlags FLAG_WINDOW_RESIZABLE,
      Event.initWindow 800 450 "Raylib Test",
      Event.setTargetFPS 60, Event.closeWindow] 0 rfl,
   first_poll_close_clean_exit.2.2.2 (fun _ => true) (fun _ c => c) 1⟩

/-- C7 (confirmed): when the close signal is false for the first 3
polls and true on the 4th, the run performs exactly 3 frame iterations,
and each iteration draws exactly one red 2 by 2 by 2 cube at the
origin, one grid with 10 slices and spacing 1, one label "Test" at
(10,10) with font size 16 in opaque white, and one gray clear: each of
those four calls occurs exactly 3 times in the whole trace, with
exactly these arguments. -/
theorem three_polls_three_frames (polls : ℕ → Bool)
    (upd : ℕ → Camera3D → Camera3D) (fuel : ℕ)
    (h0 : polls 0 = false) (h1 : polls 1 = false) (h2 : polls 2 = false)
    (h3 : polls 3 = true) (hfuel : 4 ≤ fuel) :
    ∃ t, mainC polls upd fuel = some (t, 0) ∧
      countFrames t = 3 ∧
      t.countP (fun e =>
        decide (e = Event.drawCube cube_position 2 2 2 RED)) = 3 ∧
      t.countP (fun e => decide (e = Event.drawGrid 10 1)) = 3 ∧
      t.countP (fun e => decide (e =
        Event.drawText "Test" 10 10 16 (Color.mk 255 255 255 255))) = 3 ∧
      t.countP (fun e => decide (e = Event.clearBackground GRAY)) = 3 := by
  have hfalse : ∀ k, k < 4 - 1 → polls k = false := by
    intro k hk
    interval_cases k
    · exact h0
    · exact h1
    · exact h2
  refine ⟨_, mainC_spec polls upd fuel 4 (by decide) hfalse h3 hfuel, ?_, ?_,
    ?_, ?_, ?_⟩
  · rw [countFrames, countP_wrap isBeginDrawing rfl rfl rfl rfl,
      loopTrace_countP upd isBeginDrawing 1 (fun _ _ => rfl), Nat.mul_one]
  · rw [countP_wrap (fun e =>
        decide (e = Event.drawCube cube_position 2 2 2 RED)) rfl rfl rfl rfl,
      loopTrace_countP upd (fun e =>
        decide (e = Event.drawCube cube_position 2 2 2 RED)) 1
        (fun _ _ => rfl),
      Nat.mul_one]
  · rw [countP_wrap (fun e => decide (e = Event.drawGrid 10 1))
        rfl rfl rfl rfl,
      loopTrace_countP upd (fun e => decide (e = Event.drawGrid 10 1)) 1
        (fun _ _ => rfl),
      Nat.mul_one]
  · rw [countP_wrap (fun e => decide (e =
        Event.drawText "Test" 10 10 16 (Color.mk 255 255 255 255)))
        rfl rfl rfl rfl,
      loopTrace_countP upd (fun e => decide (e =
        Event.drawText "Test" 10 10 16 (Color.mk 255 255 255 255))) 1
        (fun _ _ => rfl),
      Nat.mul_one]
  · rw [countP_wrap (fun e => decide (e = Event.clearBackground GRAY))
        rfl rfl rfl rfl,
      loopTrace_countP upd (fun e => decide (e = Event.clearBackground GRAY))
        1 (fun _ _ => rfl),
      Nat.mul_one]

/-- Witness for C7: a concrete oracle that is false for polls 0, 1, 2
and true from poll 3 on yields the 3-frame run. -/
theorem three_polls_three_frames_witness :
    ∃ t, mainC (fun k => decide (3 ≤ k)) (fun _ c => c) 4 = some (t, 0) ∧
      countFrames t = 3 ∧
      t.countP (fun e =>
        decide (e = Event.drawCube cube_position 2 2 2 RED)) = 3 ∧
      t.countP (fun e => decide (e = Event.drawGrid 10 1)) = 3 ∧
      t.countP (fun e => decide (e =
        Event.drawText "Test" 10 10 16 (Color.mk 255 255 255 255))) = 3 ∧
      t.countP (fun e => decide (e = Event.clearBackground GRAY)) = 3 :=
  three_polls_three_frames (fun k => decide (3 ≤ k)) (fun _ c => c) 4
    (by decide) (by decide) (by decide) (by decide) (by decide)

/-- C8 (confirmed): in every run terminated by its `N`-th poll, every
static draw call carries exactly its startup arguments — the cube is
always at `cube_position` with size 2 by 2 by 2 in red, the grid always
has 10 slices and spacing 1, the label is always "Test" at (10,10) size
16 in opaque white, the clear always gray — and the camera is updated
exactly once per iteration: there are exactly `N - 1` `UpdateCamera`
calls for `N - 1` frames. -/
theorem statics_unchanged_camera_once (polls : ℕ → Bool)
    (upd : ℕ → Camera3D → Camera3D) (fuel N : ℕ) (hN : 0 < N)
    (hfalse : ∀ k, k < N - 1 → polls k = false)
    (htrue : polls (N - 1) = true) (hfuel : N ≤ fuel) :
    ∃ t, mainC polls upd fuel = some (t, 0) ∧
      t.all staticDrawOk = true ∧
      t.countP isUpdateCamera = N - 1 ∧
      countFrames t = N - 1 := by
  refine ⟨_, mainC_spec polls upd fuel N hN hfalse htrue hfuel, ?_, ?_, ?_⟩
  · show (Event.setConfigFlags FLAG_WINDOW_RESIZABLE ::
      Event.initWindow screenWidth screenHeight "Raylib Test" ::
      Event.setTargetFPS 60 ::
      (loopTrace upd (N - 1) 0 cameraC ++ [Event.closeWindow])).all
        staticDrawOk = true
    simp only [List.all_cons, List.all_append, Bool.and_eq_true]
    refine ⟨rfl, rfl, rfl, ?_, rfl, rfl⟩
    exact loopTrace_static upd (N - 1) 0 cameraC
  · rw [countP_wrap isUpdateCamera rfl rfl rfl rfl,
      loopTrace_countP upd isUpdateCamera 1 (fun _ _ => rfl), Nat.mul_one]
  · rw [countFrames, countP_wrap isBeginDrawing rfl rfl rfl rfl,
      loopTrace_countP upd isBeginDrawing 1 (fun _ _ => rfl), Nat.mul_one]

/-- Witness for C8: the 4-poll run with a camera-moving update keeps
every static draw argument at its startup value and updates the camera
exactly 3 times. -/
theorem statics_unchanged_camera_once_witness :
    ∃ t, mainC (fun k => decide (3 ≤ k))
        (fun _ c => { c with fovy := c.fovy + 1 }) 4 = some (t, 0) ∧
      t.all staticDrawOk = true ∧
      t.countP isUpdateCamera = 4 - 1 ∧
      countFrames t = 4 - 1 :=
  statics_unchanged_camera_once (fun k => decide (3 ≤ k))
    (fun _ c => { c with fovy := c.fovy + 1 }) 4 4
    (by decide)
    (fun k hk => by
      simp only [decide_eq_false_iff_not]
      omega)
    (by decide) (by decide)

/-- C9 (confirmed): the two variants are behaviorally equivalent up to
the initial camera position: run from the same initial camera with the
same poll and camera-update oracles, main.cpp produces exactly the
trace and exit code of main.c; the two `main`s differ only in that
main.c starts from `cameraC` and main.cpp from `cameraCpp`, and those
two cameras differ only in position ((10,10,10) versus (5,5,5)). -/
theorem variants_behaviorally_equivalent :
    (∀ (polls : ℕ → Bool) (upd : ℕ → Camera3D → Camera3D) (fuel : ℕ)
        (cam₀ : Camera3D),
        mainCppFrom polls upd fuel cam₀ = mainCFrom polls upd fuel cam₀) ∧
    (∀ (polls : ℕ → Bool) (upd : ℕ → Camera3D → Camera3D) (fuel : ℕ),
        mainC polls upd fuel = mainCFrom polls upd fuel cameraC) ∧
    (∀ (polls : ℕ → Bool) (upd : ℕ → Camera3D → Camera3D) (fuel : ℕ),
        mainCpp polls upd fuel = mainCppFrom polls upd fuel cameraCpp) ∧
    cameraC = { cameraCpp with position := Vector3.mk 10 10 10 } ∧
    cameraC.position = Vector3.mk 10 10 10 ∧
    cameraCpp.position = Vector3.mk 5 5 5 := by
  refine ⟨?_, fun _ _ _ => rfl, fun _ _ _ => rfl, rfl, rfl, rfl⟩
  intro polls upd fuel cam₀
  unfold mainCFrom mainCppFrom
  rw [whileLoop_eq]

/-- C10 (confirmed): both programs are deterministic in their external
inputs: two runs with extensionally equal poll oracles and extensionally
equal camera-update oracles produce identical results (same event
traces, same arguments, same order, same exit code); no other input
enters the semantics. -/
theorem runs_deterministic (p₁ p₂ : ℕ → Bool)
    (u₁ u₂ : ℕ → Camera3D → Camera3D) (fuel : ℕ)
    (hp : ∀ i, p₁ i = p₂ i) (hu : ∀ i c, u₁ i c = u₂ i c) :
    mainC p₁ u₁ fuel = mainC p₂ u₂ fuel ∧
    mainCpp p₁ u₁ fuel = mainCpp p₂ u₂ fuel := by
  have hpe : p₁ = p₂ := funext hp
  have hue : u₁ = u₂ := funext fun i => funext fun c => hu i c
  rw [hpe, hue]
  exact ⟨rfl, rfl⟩

/-- Witness for C10: two syntactically equal oracle pairs give equal
runs. -/
theorem runs_deterministic_witness :
    mainC (fun k => decide (3 ≤ k)) (fun _ c => c) 5 =
      mainC (fun k => decide (3 ≤ k)) (fun _ c => c) 5 ∧
    mainCpp (fun k => decide (3 ≤ k)) (fun _ c => c) 5 =
      mainCpp (fun k => decide (3 ≤ k)) (fun _ c => c) 5 :=
  runs_deterministic (fun k => decide (3 ≤ k)) (fun k => decide (3 ≤ k))
    (fun _ c => c) (fun _ c => c) 5 (fun _ => rfl) (fun _ _ => rfl)

end SampleProject
